import Mathlib

/-!
Verification of the btc_futures_bot core against its specification.

The Python modules under `core/` are shallowly embedded: each class becomes a
Lean structure, each method a pure function over that structure (wall-clock
reads `time.time()` become an explicit `now : ℚ` argument; floats are modelled
as rationals).  All definitions follow the source files line by line.
-/

namespace BtcBot

/-- ASCII upper-casing of one character (`a`..`z` map to `A`..`Z`). -/
def asciiUpper (c : Char) : Char :=
  if 97 ≤ c.toNat ∧ c.toNat ≤ 122 then Char.ofNat (c.toNat - 32) else c

/-- Python `str.upper()` restricted to ASCII, as used on side strings. -/
def pyUpper (s : String) : String := ⟨s.data.map asciiUpper⟩

/-! ## core/trader.py — TradeManager (the PositionLedger) -/

/-- Configuration dictionary for TradeManager: `cfg.get(key, default)` with the
defaults used in `core/trader.py` (`min_trade_gap` 0.5, `position_size` 0.01,
`leverage` 1). -/
structure TMCfg where
  min_trade_gap : ℚ := 1/2
  position_size : ℚ := 1/100
  leverage : ℚ := 1
deriving Repr, DecidableEq

/-- The position dict stored by TradeManager:
`{'side': ..., 'entry': ..., 'size': ..., 'opened_at': ...}`. -/
structure Position where
  side : String
  entry : ℚ
  size : ℚ
  opened_at : ℚ
deriving Repr, DecidableEq

/-- A realized trade record appended by `TradeManager.close`. -/
structure TradeRec where
  side : String
  entry : ℚ
  exit : ℚ
  size : ℚ
  pnl : ℚ
  reason : String
  ts : ℚ
deriving Repr, DecidableEq

/-- State of `core/trader.py::TradeManager`. -/
structure TradeManager where
  cfg : TMCfg
  position : Option Position
  trades : List TradeRec
  total : ℚ
  last_trade : ℚ
deriving Repr, DecidableEq

/-- `TradeManager.__init__`. -/
def TradeManager.init (cfg : TMCfg) : TradeManager :=
  { cfg := cfg, position := none, trades := [], total := 0, last_trade := 0 }

/-- `TradeManager.open(side, price, size)` at wall-clock time `now`.
If a position exists the call returns immediately (only a warning is printed).
Otherwise the side is upper-cased, `size or default` resolves a `None`/zero
size to `cfg.position_size`, and the position dict and `last_trade` are set. -/
def TradeManager.open (tm : TradeManager) (side : String) (price : ℚ)
    (size : Option ℚ) (now : ℚ) : TradeManager :=
  match tm.position with
  | some _ => tm
  | none =>
    let sideU := pyUpper side
    let sz : ℚ :=
      match size with
      | some z => if z = 0 then tm.cfg.position_size else z
      | none => tm.cfg.position_size
    { tm with
        position := some { side := sideU, entry := price, size := sz, opened_at := now }
        last_trade := now }

/-- `TradeManager.close(price, reason)` at wall-clock time `now`.
Returns the new state and the realized pnl (0.0 when flat). -/
def TradeManager.close (tm : TradeManager) (price : ℚ) (reason : String)
    (now : ℚ) : TradeManager × ℚ :=
  match tm.position with
  | none => (tm, 0)
  | some pos =>
    let dir : ℚ := if pos.side = "LONG" then 1 else -1
    let pnl := (price - pos.entry) * dir * pos.size * tm.cfg.leverage
    ({ tm with
        total := tm.total + pnl
        trades := tm.trades ++
          [{ side := pos.side, entry := pos.entry, exit := price, size := pos.size,
             pnl := pnl, reason := reason, ts := now }]
        position := none }, pnl)

/-- `TradeManager.calculate_pnl(current_price)` — pure, no state change. -/
def TradeManager.calculate_pnl (tm : TradeManager) (current_price : ℚ) : ℚ :=
  match tm.position with
  | none => 0
  | some pos =>
    let dir : ℚ := if pos.side = "LONG" then 1 else -1
    (current_price - pos.entry) * dir * pos.size * tm.cfg.leverage

/-- An abstract ledger operation, for stating sequence-level invariants. -/
inductive TMOp where
  | opOpen (side : String) (price : ℚ) (size : Option ℚ) (now : ℚ)
  | opClose (price : ℚ) (reason : String) (now : ℚ)

/-- Apply one ledger operation. -/
def TMOp.apply (tm : TradeManager) : TMOp → TradeManager
  | .opOpen side price size now => tm.open side price size now
  | .opClose price reason now => (tm.close price reason now).1

/-- Apply a sequence of ledger operations in order. -/
def TradeManager.applyOps (tm : TradeManager) (ops : List TMOp) : TradeManager :=
  ops.foldl TMOp.apply tm

/-! ## core/heartbeat.py, core/hang_guard.py, core/freeze_detector.py,
core/slowdown.py — the four watchdog polling loops.

Each `_loop` iteration observed at wall-clock time `now` is one step function:
it returns the new watchdog state together with a flag saying whether the
recovery callback was invoked during that iteration.  A state with
`running = false` means the loop has exited (or was never started), so a step
does nothing and fires nothing. -/

/-- State of `core/heartbeat.py::HeartbeatMonitor`. -/
structure HBState where
  last_beat : ℚ
  running : Bool
deriving Repr, DecidableEq

/-- One iteration of `HeartbeatMonitor._loop` at time `now`.  On breach the
code sets `self.running = False` BEFORE calling `on_dead`, deliberately does
not reset `last_beat`, and returns out of the loop. -/
def hbStep (timeout : ℚ) (s : HBState) (now : ℚ) : HBState × Bool :=
  if s.running = false then (s, false)
  else if now - s.last_beat > timeout then
    ({ s with running := false }, true)
  else (s, false)

/-- State of `core/hang_guard.py::SilentHangGuard`. -/
structure SHState where
  last_msg : ℚ
  running : Bool
deriving Repr, DecidableEq

/-- One iteration of `SilentHangGuard._loop` at time `now`: same shape as the
heartbeat monitor — on breach it sets `running = False`, fires, and exits. -/
def shStep (timeout : ℚ) (s : SHState) (now : ℚ) : SHState × Bool :=
  if s.running = false then (s, false)
  else if now - s.last_msg > timeout then
    ({ s with running := false }, true)
  else (s, false)

/-- State of `core/freeze_detector.py::FreezeDetector`. -/
structure FZState where
  last_tick : ℚ
  running : Bool
deriving Repr, DecidableEq

/-- One iteration of `FreezeDetector._loop` at time `now`.  On breach the
callback fires and `last_tick` is reset to `now`; the loop keeps running. -/
def fzStep (timeout : ℚ) (s : FZState) (now : ℚ) : FZState × Bool :=
  if s.running = false then (s, false)
  else if now - s.last_tick > timeout then
    ({ s with last_tick := now }, true)
  else (s, false)

/-- State of `core/slowdown.py::SlowdownDetector` relevant to its loop: the
deque of recent inter-tick intervals (last element = latest) and the flag. -/
structure SDState where
  intervals : List ℚ
  running : Bool
deriving Repr, DecidableEq

/-- One iteration of `SlowdownDetector._loop`: with at least 10 samples,
fires when the latest interval exceeds `avg * threshold_factor`.  The loop
body never mutates the detector state. -/
def sdStep (threshold_factor : ℚ) (s : SDState) : SDState × Bool :=
  if s.running = false then (s, false)
  else if 10 ≤ s.intervals.length then
    match s.intervals.getLast? with
    | some latest =>
      let a := s.intervals.sum / s.intervals.length
      if latest > a * threshold_factor then (s, true) else (s, false)
    | none => (s, false)
  else (s, false)

/-! ## core/paper_executor.py — PaperExecutor (the ExecutionEngine) -/

/-- An order dict created by `PaperExecutor.submit_order`. -/
structure Order where
  order_id : String
  side : String
  size : ℚ
  submitted_price : ℚ
  submitted_at : ℚ
deriving Repr, DecidableEq

/-- State of `core/paper_executor.py::PaperExecutor`.  The FIFO `queue` is the
worker's input; `outstanding` is the (never-written) dict cleared by
`cancel_all`.  Settings fields carry the `__init__` defaults. -/
structure PaperExecutor where
  queue : List Order
  last_fill_ts : ℚ
  min_trade_gap_s : ℚ
  sim_spread_usd : ℚ
  sim_slippage_pct : ℚ
  fee_taker_pct : ℚ
  outstanding : List (String × Order)
  order_id_ctr : ℕ
deriving Repr, DecidableEq

/-- `PaperExecutor.__init__` with default settings (`min_trade_gap_s` 1.0,
`sim_spread_usd` 1.0, `sim_slippage_pct` 0.0005, `fee_taker_pct` 0.0005). -/
def PaperExecutor.init : PaperExecutor :=
  { queue := [], last_fill_ts := 0, min_trade_gap_s := 1,
    sim_spread_usd := 1, sim_slippage_pct := 5/10000, fee_taker_pct := 5/10000,
    outstanding := [], order_id_ctr := 0 }

/-- Result dict returned by `submit_order` (and by `bot.place_order`). -/
structure SubmitResult where
  status : String
  reason : Option String
  order_id : Option String
deriving Repr, DecidableEq

/-- `PaperExecutor._next_oid()`. -/
def PaperExecutor.next_oid (ex : PaperExecutor) : PaperExecutor × String :=
  let ctr := ex.order_id_ctr + 1
  ({ ex with order_id_ctr := ctr }, "paper-" ++ toString ctr)

/-- `PaperExecutor.submit_order(side, size, price, meta)` at time `now`.
Rejects with `min_trade_gap` when called within `min_trade_gap_s` of the last
fill; otherwise builds the order dict (side upper-cased, no validation of its
value) and puts it on the worker queue, returning status `queued`. -/
def PaperExecutor.submit_order (ex : PaperExecutor) (side : String)
    (size price now : ℚ) : PaperExecutor × SubmitResult :=
  if now - ex.last_fill_ts < ex.min_trade_gap_s then
    (ex, { status := "rejected", reason := some "min_trade_gap", order_id := none })
  else
    let (ex1, oid) := ex.next_oid
    let order : Order :=
      { order_id := oid, side := pyUpper side, size := size,
        submitted_price := price, submitted_at := now }
    ({ ex1 with queue := ex1.queue ++ [order] },
     { status := "queued", reason := none, order_id := some oid })

/-- `PaperExecutor.cancel_all()`: counts and clears `self.outstanding` (the
worker queue is untouched).  Returns the new state and the count. -/
def PaperExecutor.cancel_all (ex : PaperExecutor) : PaperExecutor × ℕ :=
  ({ ex with outstanding := [] }, ex.outstanding.length)

/-- `PaperExecutor._compute_executed_price(order)` with randomization off
(`sim_random_slippage = False`): executed = p + sign(side) × (half-spread +
slippage_pct × p). -/
def PaperExecutor.compute_executed_price (ex : PaperExecutor) (o : Order) : ℚ :=
  let p := o.submitted_price
  let half_spread := ex.sim_spread_usd / 2
  let sign : ℚ := if o.side = "LONG" then 1 else -1
  let base_slip := ex.sim_slippage_pct * p
  p + sign * (half_spread + base_slip)

/-- `PaperExecutor._apply_fill_to_trader(order, executed_price, ...)`:
no position → open; same side → ignore; opposite side → close then open. -/
def PaperExecutor.apply_fill_to_trader (tm : TradeManager) (o : Order)
    (executed_price now : ℚ) : TradeManager :=
  match tm.position with
  | none => tm.open o.side executed_price (some o.size) now
  | some pos =>
    if pyUpper pos.side = pyUpper o.side then tm
    else
      let tm1 := (tm.close executed_price "EXECUTE_REPLACE" now).1
      tm1.open o.side executed_price (some o.size) now

/-- One fill-processing pass of `PaperExecutor._run` for the head of the
queue, with the fill-probability Bernoulli draw given as `fill` and
deterministic slippage.  Returns the executor, trader and whether a fill was
applied.  An empty queue or a lost draw changes nothing except consuming the
order. -/
def PaperExecutor.workerStep (ex : PaperExecutor) (tm : TradeManager)
    (fill : Bool) (now : ℚ) : PaperExecutor × TradeManager × Bool :=
  match ex.queue with
  | [] => (ex, tm, false)
  | o :: rest =>
    let ex1 := { ex with queue := rest }
    if fill = false then (ex1, tm, false)
    else
      let px := ex1.compute_executed_price o
      let ex2 := { ex1 with last_fill_ts := now }
      (ex2, PaperExecutor.apply_fill_to_trader tm o px now, true)

/-! ## bot.py — place_order (the order-validation wrapper) -/

/-- The bot-level anti-reentry state captured by `place_order`. -/
structure BotState where
  closed_due_to_sl_ts : Option ℚ
  closed_signal : Option String
deriving Repr, DecidableEq

/-- `bot.place_order(side, price, size)` at time `now` with cooldown
`sl_cooldown`.  Rejects `invalid_side` when side is `None` or its upper-case
form is not LONG/SHORT, without touching the executor; may reject for the
SL-close cooldown; otherwise calls `executor.submit_order` and on `queued`
clears the anti-reentry state. -/
def place_order (ex : PaperExecutor) (bs : BotState) (sl_cooldown : ℚ)
    (side : Option String) (price size now : ℚ) :
    PaperExecutor × BotState × SubmitResult :=
  match side with
  | none =>
    (ex, bs, { status := "rejected", reason := some "invalid_side", order_id := none })
  | some sd =>
    let side_norm := pyUpper sd
    if side_norm ≠ "LONG" ∧ side_norm ≠ "SHORT" then
      (ex, bs, { status := "rejected", reason := some "invalid_side", order_id := none })
    else
      let blocked : Bool :=
        match bs.closed_due_to_sl_ts with
        | some ts => decide (now - ts < sl_cooldown) && decide (bs.closed_signal = some side_norm)
        | none => false
      if blocked then
        (ex, bs, { status := "rejected", reason := some "blocked_recent_sl_close_cooldown",
                   order_id := none })
      else
        let (ex1, res) := ex.submit_order side_norm size price now
        let bs1 := if res.status = "queued" then
            { closed_due_to_sl_ts := none, closed_signal := none }
          else bs
        (ex1, bs1, res)

/-! ## core/risk_guard.py — RiskGuard -/

/-- State of `core/risk_guard.py::RiskGuard`.  The `__init__` stores the
percentage parameters divided by 100 (`self.max_distance_pct =
max_distance_pct / 100`); the stored fields appear here. -/
structure RiskGuard where
  max_exposure_seconds : ℚ
  max_distance_pct : ℚ
  max_slippage_pct : ℚ
  side : Option String
  entry_price : Option ℚ
  last_entry_time : Option ℚ
deriving Repr, DecidableEq

/-- `RiskGuard.__init__(max_exposure_seconds, max_distance_pct,
max_slippage_pct)`: the two `_pct` parameters are divided by 100. -/
def RiskGuard.init (max_exposure_seconds max_distance_pct max_slippage_pct : ℚ) :
    RiskGuard :=
  { max_exposure_seconds := max_exposure_seconds,
    max_distance_pct := max_distance_pct / 100,
    max_slippage_pct := max_slippage_pct / 100,
    side := none, entry_price := none, last_entry_time := none }

/-- `RiskGuard.on_open(side, entry)` at time `now`. -/
def RiskGuard.on_open (g : RiskGuard) (side : String) (entry now : ℚ) : RiskGuard :=
  { g with side := some side, entry_price := some entry, last_entry_time := some now }

/-- `RiskGuard.reset()`. -/
def RiskGuard.reset (g : RiskGuard) : RiskGuard :=
  { g with side := none, entry_price := none, last_entry_time := none }

/-- `RiskGuard.check(current_price)` at time `now`.  Returns the new state and
the event passed to `on_risk` (if any).  `if not self.entry_price` is Python
falsy: it returns early both for `None` and for a zero entry price. -/
def RiskGuard.check (g : RiskGuard) (now current_price : ℚ) :
    RiskGuard × Option String :=
  match g.last_entry_time with
  | none => (g, none)
  | some t0 =>
    let alive := now - t0
    if alive > g.max_exposure_seconds then (g.reset, some "EXPOSURE_TIMEOUT")
    else
      match g.entry_price with
      | none => (g, none)
      | some e =>
        if e = 0 then (g, none)
        else
          let dist := |current_price - e| / e
          if dist > g.max_distance_pct then (g.reset, some "DISTANCE_MAX")
          else (g, none)

/-! ## core/adaptive_reconnect.py — AdaptiveReconnect (the QualityTracker) -/

/-- State of `core/adaptive_reconnect.py::AdaptiveReconnect`.  `avg_uptime`
starts at 0 (an integer 0 in the source, never `None`). -/
structure AdaptiveReconnect where
  last_connect : Option ℚ
  last_disconnect : Option ℚ
  avg_uptime : ℚ
  samples : ℕ
deriving Repr, DecidableEq

/-- `AdaptiveReconnect.__init__`. -/
def AdaptiveReconnect.init : AdaptiveReconnect :=
  { last_connect := none, last_disconnect := none, avg_uptime := 0, samples := 0 }

/-- `AdaptiveReconnect.on_connect()` at time `now`. -/
def AdaptiveReconnect.on_connect (a : AdaptiveReconnect) (now : ℚ) : AdaptiveReconnect :=
  { a with last_connect := some now }

/-- `AdaptiveReconnect.on_disconnect()` at time `now`: smooths the session
uptime into `avg_uptime` with `alpha = min(0.25, 1/samples)` after
incrementing the sample count.  (`last_connect` equal to time 0 is Python
falsy and also returns early.) -/
def AdaptiveReconnect.on_disconnect (a : AdaptiveReconnect) (now : ℚ) :
    AdaptiveReconnect × ℚ :=
  match a.last_connect with
  | none => (a, a.avg_uptime)
  | some t0 =>
    if t0 = 0 then (a, a.avg_uptime)
    else
      let uptime := now - t0
      let samples := a.samples + 1
      let alpha := min (1/4 : ℚ) (1 / samples)
      let avg := alpha * uptime + (1 - alpha) * a.avg_uptime
      ({ a with samples := samples, avg_uptime := avg }, avg)

/-- `AdaptiveReconnect.get_quality_score()` (`self.avg_uptime or 0` is the
identity here because `avg_uptime` is never `None` and `0 or 0 = 0`). -/
def AdaptiveReconnect.get_quality_score (a : AdaptiveReconnect) : String :=
  let u := a.avg_uptime
  if u > 120 then "excellent"
  else if u > 60 then "good"
  else if u > 20 then "poor"
  else "very_bad"

/-! ## core/connection.py — DeltaExchangeWebSocket (the StreamConnection)

Socket and thread handles are modelled by presence flags; a scheduled
reconnect timer is `(captured token, delay)`.  `self.timers` (the bookkeeping
list the source appends every scheduled timer to) is kept so that "how many
timers were scheduled" is observable. -/

/-- Observable side effects of `_do_reconnect`. -/
inductive ConnEffect where
  | teardown
  | connectCall
deriving Repr, DecidableEq

/-- State of `core/connection.py::DeltaExchangeWebSocket`. -/
structure ConnState where
  active : Bool
  authed : Bool
  health_state : String
  ws : Bool
  thread : Bool
  last_reconnect : ℚ
  reconnect_attempts : ℕ
  reconnect_token : ℕ
  reconnect_timer : Option (ℕ × ℚ)
  timers : List (ℕ × ℚ)
  reconnector : AdaptiveReconnect
deriving Repr, DecidableEq

/-- `DeltaExchangeWebSocket.__init__`. -/
def ConnState.init : ConnState :=
  { active := false, authed := false, health_state := "OK",
    ws := false, thread := false,
    last_reconnect := 0, reconnect_attempts := 0,
    reconnect_token := 0, reconnect_timer := none, timers := [],
    reconnector := AdaptiveReconnect.init }

/-- `mark_dead()`. -/
def ConnState.mark_dead (s : ConnState) : ConnState :=
  { s with health_state := "BAD", active := false }

/-- `_cancel_pending_reconnect()`: bumps the token, drops the pending timer,
cancels and clears the bookkeeping list. -/
def ConnState.cancel_pending_reconnect (s : ConnState) : ConnState :=
  { s with reconnect_token := s.reconnect_token + 1,
           reconnect_timer := none, timers := [] }

/-- `connect()`: no-op (apart from cancelling pending reconnects) when
already active; otherwise flips to active/unauthenticated/healthy, cancels
pending reconnects, creates the WebSocketApp and starts the read thread. -/
def ConnState.connect (s : ConnState) : ConnState :=
  if s.active then s.cancel_pending_reconnect
  else
    let s1 := { s with active := true, authed := false, health_state := "OK" }
    let s2 := s1.cancel_pending_reconnect
    { s2 with ws := true, thread := true }

/-- The `base` delay derived from a quality score in `reconnect()`. -/
def reconnectBase (q : String) : ℚ :=
  if q = "excellent" then 2
  else if q = "good" then 5
  else if q = "poor" then 12
  else 30

/-- `reconnect()` at time `now`: ignored while active; suppressed within 3s of
the last non-suppressed call; otherwise bumps `last_reconnect` and the attempt
counter, computes `delay = base(quality) + min(2^attempts, 30)`, bumps the
token, replaces the pending timer and appends it to the bookkeeping list. -/
def ConnState.reconnect (s : ConnState) (now : ℚ) : ConnState :=
  if s.active then s
  else if now - s.last_reconnect < 3 then s
  else
    let s1 := { s with last_reconnect := now,
                       reconnect_attempts := s.reconnect_attempts + 1 }
    let q := s1.reconnector.get_quality_score
    let penalty : ℚ := min ((2 : ℚ) ^ s1.reconnect_attempts) 30
    let delay := reconnectBase q + penalty
    let token := s1.reconnect_token + 1
    { s1 with reconnect_token := token,
              reconnect_timer := some (token, delay),
              timers := s1.timers ++ [(token, delay)] }

/-- Fold `reconnect()` over a list of call times. -/
def ConnState.reconnectSeq (s : ConnState) (ts : List ℚ) : ConnState :=
  ts.foldl ConnState.reconnect s

/-- `_do_reconnect(token)` (the timer body): a stale token aborts silently
changing nothing; an already-active connection only runs
`_cancel_pending_reconnect`; otherwise it tears the socket down, clears
handles and flags, and calls `connect()`.  The effect list records whether
socket teardown happened and whether `connect()` was invoked. -/
def ConnState.do_reconnect (s : ConnState) (token : ℕ) :
    ConnState × List ConnEffect :=
  if token ≠ s.reconnect_token then (s, [])
  else if s.active then (s.cancel_pending_reconnect, [])
  else
    let s1 := { s with ws := false, thread := false, active := false, authed := false }
    (s1.connect, [ConnEffect.teardown, ConnEffect.connectCall])

/-! ## Concrete sample states used by witnesses -/

/-- A ledger holding an open SHORT position at entry 100, size 1. -/
def tmShortSample : TradeManager :=
  { cfg := {}, position := some { side := "SHORT", entry := 100, size := 1, opened_at := 0 },
    trades := [], total := 0, last_trade := 0 }

/-- A RiskGuard built with `max_distance_pct = 0.4` whose exposure window
opened at time 0 on a LONG entry at price 100. -/
def rgSample : RiskGuard := (RiskGuard.init 120 (4/10) (3/10)).on_open "LONG" 100 0

/-- A fresh connection whose QualityTracker has smoothed uptime 150s
(quality `excellent`). -/
def connExcellent : ConnState :=
  { ConnState.init with reconnector := { AdaptiveReconnect.init with avg_uptime := 150 } }

/-! ## Helper lemmas -/

lemma pyUpper_LONG : pyUpper "LONG" = "LONG" := by decide

lemma pyUpper_SHORT : pyUpper "SHORT" = "SHORT" := by decide

/-- `TradeManager.open` is the identity when a position already exists. -/
lemma TradeManager.open_of_some {tm : TradeManager} {p : Position}
    (hp : tm.position = some p) (side : String) (price : ℚ) (size : Option ℚ)
    (now : ℚ) : tm.open side price size now = tm := by
  unfold TradeManager.open
  rw [hp]

/-- `TradeManager.open` on a flat ledger, for an upper-case side and a nonzero
size, creates exactly the requested position. -/
lemma TradeManager.open_of_none {tm : TradeManager} (hp : tm.position = none)
    {side : String} (hs : pyUpper side = side) {z : ℚ} (hz : z ≠ 0)
    (price now : ℚ) :
    tm.open side price (some z) now =
      { tm with
          position := some { side := side, entry := price, size := z, opened_at := now }
          last_trade := now } := by
  unfold TradeManager.open
  rw [hp]
  simp [hs, hz]

/-- `reconnect()` while the 3-second suppression window is open returns with
the state untouched. -/
lemma ConnState.reconnect_suppressed {s : ConnState} {now : ℚ}
    (hact : s.active = false) (h : now - s.last_reconnect < 3) :
    s.reconnect now = s := by
  unfold ConnState.reconnect
  rw [hact]
  simp [h]

/-- A non-suppressed `reconnect()` on an inactive connection: the scheduling
branch spelled out. -/
lemma ConnState.reconnect_sched {s : ConnState} {now : ℚ}
    (hact : s.active = false) (h : ¬ (now - s.last_reconnect < 3)) :
    s.reconnect now =
      { s with
          last_reconnect := now
          reconnect_attempts := s.reconnect_attempts + 1
          reconnect_token := s.reconnect_token + 1
          reconnect_timer := some (s.reconnect_token + 1,
            reconnectBase s.reconnector.get_quality_score +
              min ((2:ℚ) ^ (s.reconnect_attempts + 1)) 30)
          timers := s.timers ++ [(s.reconnect_token + 1,
            reconnectBase s.reconnector.get_quality_score +
              min ((2:ℚ) ^ (s.reconnect_attempts + 1)) 30)] } := by
  unfold ConnState.reconnect
  rw [hact]
  simp only [Bool.false_eq_true, if_false]
  rw [if_neg h]

/-- Folding `reconnect` over calls that are all no-ops is a no-op. -/
lemma reconnect_foldl_fixed (g : ConnState) (ts : List ℚ)
    (h : ∀ t ∈ ts, g.reconnect t = g) :
    ts.foldl ConnState.reconnect g = g := by
  induction ts with
  | nil => rfl
  | cons a l ih =>
    simp only [List.foldl_cons]
    rw [h a (by simp)]
    exact ih fun t ht => h t (by simp [ht])

/-! ## Claim theorems -/

/-- C1: the PositionLedger (TradeManager) holds at most one open position:
`open(side, price, size)` with an existing position is a no-op that leaves
the whole ledger state (the existing position included) unchanged, and on a
flat ledger it creates the position with the given side, price and size —
so a second `open` right after a first one changes nothing. -/
theorem C1_ledger_single_position
    (tm : TradeManager) (side : String) (price z now : ℚ)
    (hside : side = "LONG" ∨ side = "SHORT") (hz : z ≠ 0) :
    (∀ p, tm.position = some p → tm.open side price (some z) now = tm) ∧
    (tm.position = none →
      (tm.open side price (some z) now).position =
        some { side := side, entry := price, size := z, opened_at := now } ∧
      ∀ s2 p2 z2 t2,
        (tm.open side price (some z) now).open s2 p2 z2 t2 =
          tm.open side price (some z) now) := by
  have hs : pyUpper side = side := by
    rcases hside with h | h <;> rw [h]
    · exact pyUpper_LONG
    · exact pyUpper_SHORT
  refine ⟨fun p hp => TradeManager.open_of_some hp _ _ _ _, fun hnone => ?_⟩
  rw [TradeManager.open_of_none hnone hs hz]
  exact ⟨rfl, fun s2 p2 z2 t2 => TradeManager.open_of_some rfl _ _ _ _⟩

/-- C1 witness: on a fresh ledger, `open LONG @100 size 1` creates exactly
that position, and an immediate second `open` is a no-op. -/
theorem C1_ledger_single_position_witness :
    ((TradeManager.init {}).open "LONG" 100 (some 1) 5).position =
      some { side := "LONG", entry := 100, size := 1, opened_at := 5 } ∧
    ((TradeManager.init {}).open "LONG" 100 (some 1) 5).open "SHORT" 90 (some 2) 6 =
      (TradeManager.init {}).open "LONG" 100 (some 1) 5 := by
  have h := (C1_ledger_single_position (TradeManager.init {}) "LONG" 100 1 5
      (Or.inl rfl) one_ne_zero).2 rfl
  exact ⟨h.1, h.2 "SHORT" 90 (some 2) 6⟩

/-- C8: `close(p, reason)` on an open position realizes
`(p − entry) × dir × size × leverage` (dir = +1 for LONG, −1 for SHORT),
adds it to the running total, appends one trade record and clears the
position; `close` when flat returns 0 and changes nothing;
`calculate_pnl` computes the same formula without mutating state; and the
round trip open LONG @100 size 1 leverage 1 gives `calculate_pnl(103) = 3`
and `close(105, "X") = 5`. -/
theorem C8_close_realized_pnl
    (tm : TradeManager) (pos : Position) (p now : ℚ) (reason : String)
    (hpos : tm.position = some pos) :
    (pos.side = "LONG" →
      tm.close p reason now =
        ({ tm with
            total := tm.total + (p - pos.entry) * 1 * pos.size * tm.cfg.leverage
            trades := tm.trades ++
              [{ side := pos.side, entry := pos.entry, exit := p, size := pos.size,
                 pnl := (p - pos.entry) * 1 * pos.size * tm.cfg.leverage,
                 reason := reason, ts := now }]
            position := none },
         (p - pos.entry) * 1 * pos.size * tm.cfg.leverage)) ∧
    (pos.side = "SHORT" →
      tm.close p reason now =
        ({ tm with
            total := tm.total + (p - pos.entry) * (-1) * pos.size * tm.cfg.leverage
            trades := tm.trades ++
              [{ side := pos.side, entry := pos.entry, exit := p, size := pos.size,
                 pnl := (p - pos.entry) * (-1) * pos.size * tm.cfg.leverage,
                 reason := reason, ts := now }]
            position := none },
         (p - pos.entry) * (-1) * pos.size * tm.cfg.leverage)) ∧
    (∀ tm2 : TradeManager, tm2.position = none → tm2.close p reason now = (tm2, 0)) ∧
    (pos.side = "LONG" →
      tm.calculate_pnl p = (p - pos.entry) * 1 * pos.size * tm.cfg.leverage) ∧
    (pos.side = "SHORT" →
      tm.calculate_pnl p = (p - pos.entry) * (-1) * pos.size * tm.cfg.leverage) ∧
    (((TradeManager.init {}).open "LONG" 100 (some 1) 0).calculate_pnl 103 = 3 ∧
     (((TradeManager.init {}).open "LONG" 100 (some 1) 0).close 105 "X" 1).2 = 5 ∧
     (((TradeManager.init {}).open "LONG" 100 (some 1) 0).close 105 "X" 1).1.total = 5 ∧
     (((TradeManager.init {}).open "LONG" 100 (some 1) 0).close 105 "X" 1).1.position = none) := by
  have hopen : (TradeManager.init {}).open "LONG" 100 (some 1) 0 =
      { cfg := {}, position := some { side := "LONG", entry := 100, size := 1, opened_at := 0 },
        trades := [], total := 0, last_trade := 0 } := by
    rw [TradeManager.open_of_none rfl pyUpper_LONG one_ne_zero]
    rfl
  refine ⟨?_, ?_, ?_, ?_, ?_, ?_⟩
  · intro h
    unfold TradeManager.close
    rw [hpos]
    simp [h]
  · intro h
    unfold TradeManager.close
    rw [hpos]
    have : pos.side ≠ "LONG" := by rw [h]; decide
    simp [this]
  · intro tm2 h2
    unfold TradeManager.close
    rw [h2]
  · intro h
    unfold TradeManager.calculate_pnl
    rw [hpos]
    simp [h]
  · intro h
    unfold TradeManager.calculate_pnl
    rw [hpos]
    have : pos.side ≠ "LONG" := by rw [h]; decide
    simp [this]
  · rw [hopen]
    unfold TradeManager.calculate_pnl TradeManager.close
    norm_num [TMCfg.leverage]

/-- C8 witness: closing the sample SHORT position (entry 100, size 1,
leverage 1) at price 90 realizes pnl 10. -/
theorem C8_close_realized_pnl_witness :
    (tmShortSample.close 90 "Y" 1).2 = 10 := by
  have h := (C8_close_realized_pnl tmShortSample
      { side := "SHORT", entry := 100, size := 1, opened_at := 0 }
      90 1 "Y" rfl).2.1 rfl
  rw [h]
  norm_num [tmShortSample]

/-- C2 counterexample: the claim fails on `HeartbeatMonitor._loop`.  With
timeout 10 and `last_beat = 0`, the poll at t = 20 is a breach: the loop fires
and exits (`running = false`, clock NOT reset).  At t = 40 the timeout is
again exceeded (40 − 0 > 10), yet the monitor fires nothing — the subsequent
breach is never detected, contradicting "resets its internal clock and
continues monitoring". -/
theorem C2_watchdog_counterexample :
    (hbStep 10 { last_beat := 0, running := true } 20 =
      ({ last_beat := 0, running := false }, true)) ∧
    (hbStep 10 (hbStep 10 { last_beat := 0, running := true } 20).1 40 =
      ({ last_beat := 0, running := false }, false)) ∧
    (40 : ℚ) - 0 > 10 := by
  norm_num [hbStep]

/-- C2 amended: only the FreezeDetector implements breach–fire–reset–continue.
HeartbeatMonitor and SilentHangGuard fire exactly once and then terminate
permanently (`running := false`, loop exits, clock not reset), so a later
breach fires nothing until `start()`; the SlowdownDetector's poll never
mutates its state at all (no reset, no stop — it can re-fire for the same
condition). -/
theorem C2_watchdog_loop_behavior (timeout : ℚ) :
    (∀ (s : HBState) (now : ℚ), s.running = true → now - s.last_beat > timeout →
      hbStep timeout s now = ({ s with running := false }, true)) ∧
    (∀ (s : HBState) (now : ℚ), s.running = false → hbStep timeout s now = (s, false)) ∧
    (∀ (s : SHState) (now : ℚ), s.running = true → now - s.last_msg > timeout →
      shStep timeout s now = ({ s with running := false }, true)) ∧
    (∀ (s : SHState) (now : ℚ), s.running = false → shStep timeout s now = (s, false)) ∧
    (∀ (s : FZState) (now : ℚ), s.running = true → now - s.last_tick > timeout →
      fzStep timeout s now = ({ s with last_tick := now }, true)) ∧
    (∀ (s : FZState) (now : ℚ), s.running = true → ¬ (now - s.last_tick > timeout) →
      fzStep timeout s now = (s, false)) ∧
    (∀ (factor : ℚ) (s : SDState), (sdStep factor s).1 = s) := by
  refine ⟨?_, ?_, ?_, ?_, ?_, ?_, ?_⟩
  · intro s now hr hb
    simp [hbStep, hr, hb]
  · intro s now hr
    simp [hbStep, hr]
  · intro s now hr hb
    simp [shStep, hr, hb]
  · intro s now hr
    simp [shStep, hr]
  · intro s now hr hb
    simp [fzStep, hr, hb]
  · intro s now hr hb
    simp [fzStep, hr, hb]
  · intro factor s
    unfold sdStep
    repeat' split
    all_goals try rfl
    all_goals simp [apply_ite]

/-- C2 witness: with timeout 10, a heartbeat breach at t = 20 fires and stops
the loop; a freeze breach at t = 11 fires and resets the clock to 11 while
the loop keeps running; the slowdown poll leaves its state untouched. -/
theorem C2_watchdog_loop_behavior_witness :
    hbStep 10 { last_beat := 0, running := true } 20 =
      ({ last_beat := 0, running := false }, true) ∧
    fzStep 10 { last_tick := 0, running := true } 11 =
      ({ last_tick := 11, running := true }, true) ∧
    (sdStep 3 { intervals := [1, 1, 1, 1, 1, 1, 1, 1, 1, 9], running := true }).1 =
      { intervals := [1, 1, 1, 1, 1, 1, 1, 1, 1, 9], running := true } := by
  refine ⟨?_, ?_, (C2_watchdog_loop_behavior 10).2.2.2.2.2.2 3 _⟩
  · exact (C2_watchdog_loop_behavior 10).1 _ 20 rfl (by norm_num)
  · exact (C2_watchdog_loop_behavior 10).2.2.2.2.1 _ 11 rfl (by norm_num)

/-- C3 counterexample: `PaperExecutor.submit_order("UP", 1, 100)` is NOT
rejected — it enqueues an order with side "UP" and returns status `queued`
(the executor performs no side validation at all). -/
theorem C3_submit_order_counterexample :
    (PaperExecutor.init.submit_order "UP" 1 100 100).2 =
      { status := "queued", reason := none, order_id := some "paper-1" } ∧
    (PaperExecutor.init.submit_order "UP" 1 100 100).1.queue =
      [{ order_id := "paper-1", side := "UP", size := 1,
         submitted_price := 100, submitted_at := 100 }] := by
  have hup : pyUpper "UP" = "UP" := by decide
  have hoid : "paper-" ++ toString 1 = "paper-1" := by decide
  norm_num [PaperExecutor.submit_order, PaperExecutor.init, PaperExecutor.next_oid,
    hup, hoid]

/-- C3 amended: side validation lives in `bot.place_order`, not in the
executor.  For a side whose upper-case form is outside {LONG, SHORT}:
`place_order` returns `{status: rejected, reason: invalid_side}` without
calling `submit_order` (executor and bot state unchanged, nothing enqueued),
while a direct `submit_order` call that passes the min-trade-gap check
enqueues the order regardless of its side and returns `queued`. -/
theorem C3_invalid_side_rejected_in_place_order
    (ex : PaperExecutor) (bs : BotState) (cooldown : ℚ) (side : String)
    (size price now : ℚ)
    (hgap : ¬ (now - ex.last_fill_ts < ex.min_trade_gap_s))
    (hside : pyUpper side ≠ "LONG" ∧ pyUpper side ≠ "SHORT") :
    place_order ex bs cooldown (some side) price size now =
      (ex, bs, { status := "rejected", reason := some "invalid_side", order_id := none }) ∧
    (ex.submit_order side size price now).2.status = "queued" ∧
    (ex.submit_order side size price now).1.queue =
      ex.queue ++ [{ order_id := "paper-" ++ toString (ex.order_id_ctr + 1),
                     side := pyUpper side, size := size,
                     submitted_price := price, submitted_at := now }] := by
  refine ⟨?_, ?_, ?_⟩
  · simp only [place_order]
    rw [if_pos hside]
  · unfold PaperExecutor.submit_order
    rw [if_neg hgap]
  · unfold PaperExecutor.submit_order
    rw [if_neg hgap]
    simp [PaperExecutor.next_oid]

/-- C3 witness: on a fresh executor at t = 100 (gap check passes), the bot
wrapper rejects side "UP" with `invalid_side` and a direct `submit_order`
queues it. -/
theorem C3_invalid_side_rejected_in_place_order_witness :
    place_order PaperExecutor.init { closed_due_to_sl_ts := none, closed_signal := none }
        10 (some "UP") 100 1 100 =
      (PaperExecutor.init, { closed_due_to_sl_ts := none, closed_signal := none },
       { status := "rejected", reason := some "invalid_side", order_id := none }) ∧
    (PaperExecutor.init.submit_order "UP" 1 100 100).2.status = "queued" := by
  have h := C3_invalid_side_rejected_in_place_order PaperExecutor.init
    { closed_due_to_sl_ts := none, closed_signal := none } 10 "UP" 1 100 100
    (by norm_num [PaperExecutor.init]) (by decide)
  exact ⟨h.1, h.2.1⟩

/-- C4: the code is wrong.  `submit_order` never records the order in
`self.outstanding` (nothing does), so `cancel_all()` after submitting one
not-yet-dequeued order returns 0 — not 1 — and leaves the order on the worker
queue, where the worker later dequeues and fills it into the ledger. -/
theorem C4_cancel_all_failing_input :
    ((PaperExecutor.init.submit_order "LONG" 1 100 100).2.status = "queued") ∧
    ((PaperExecutor.init.submit_order "LONG" 1 100 100).1.queue.length = 1) ∧
    ((PaperExecutor.init.submit_order "LONG" 1 100 100).1.outstanding = []) ∧
    ((PaperExecutor.init.submit_order "LONG" 1 100 100).1.cancel_all.2 = 0) ∧
    ((PaperExecutor.init.submit_order "LONG" 1 100 100).1.cancel_all.1.queue =
      (PaperExecutor.init.submit_order "LONG" 1 100 100).1.queue) ∧
    ((PaperExecutor.workerStep (PaperExecutor.init.submit_order "LONG" 1 100 100).1.cancel_all.1
        (TradeManager.init {}) true 101).2.2 = true) ∧
    ((PaperExecutor.workerStep (PaperExecutor.init.submit_order "LONG" 1 100 100).1.cancel_all.1
        (TradeManager.init {}) true 101).2.1.position.isSome = true) := by
  have hlong : pyUpper "LONG" = "LONG" := by decide
  norm_num [PaperExecutor.submit_order, PaperExecutor.init, PaperExecutor.next_oid,
    PaperExecutor.cancel_all, PaperExecutor.workerStep,
    PaperExecutor.compute_executed_price, PaperExecutor.apply_fill_to_trader,
    TradeManager.init, TradeManager.open, hlong]

/-- C5 counterexample: `RiskGuard(max_distance_pct = 0.4)` with an open LONG
exposure at entry 100 fires `DISTANCE_MAX` at price 100.5, although
|100.5 − 100| / 100 = 0.005 does not exceed the constructor parameter 0.4 —
the guard compares against the parameter divided by 100. -/
theorem C5_distance_counterexample :
    (rgSample.check 1 (201/2)).2 = some "DISTANCE_MAX" ∧
    ¬ (|(201/2 : ℚ) - 100| / 100 > 4/10) := by
  constructor
  · norm_num [rgSample, RiskGuard.init, RiskGuard.on_open, RiskGuard.check,
      RiskGuard.reset, abs]
  · norm_num [abs]

/-- C5 amended: within an open, not-timed-out exposure window with nonzero
entry price `e`, `check(p)` fires `DISTANCE_MAX` and resets exactly when
|p − e| / e exceeds `max_distance_pct / 100` (the constructor divides the
percentage parameter by 100); below that threshold it leaves the guard
unchanged and fires nothing. -/
theorem C5_distance_fires_at_param_over_100
    (maxExp maxDist maxSlip : ℚ) (side : String) (e t0 now p : ℚ)
    (hnt : ¬ (now - t0 > maxExp)) (he : e ≠ 0) :
    ((|p - e| / e > maxDist / 100) →
      ((RiskGuard.init maxExp maxDist maxSlip).on_open side e t0).check now p =
        (((RiskGuard.init maxExp maxDist maxSlip).on_open side e t0).reset,
         some "DISTANCE_MAX")) ∧
    (¬ (|p - e| / e > maxDist / 100) →
      ((RiskGuard.init maxExp maxDist maxSlip).on_open side e t0).check now p =
        ((RiskGuard.init maxExp maxDist maxSlip).on_open side e t0, none)) := by
  constructor
  · intro hd
    simp [RiskGuard.check, RiskGuard.on_open, RiskGuard.init, hnt, he, hd]
  · intro hd
    simp [RiskGuard.check, RiskGuard.on_open, RiskGuard.init, hnt, he, hd]

/-- C5 witness: the amended threshold at work — with parameter 0.4, entry 100,
price 100.5 fires (0.005 > 0.004) and price 100.003 does not (0.00003 ≤ 0.004). -/
theorem C5_distance_fires_at_param_over_100_witness :
    rgSample.check 1 (201/2) = (rgSample.reset, some "DISTANCE_MAX") ∧
    rgSample.check 1 (100003/1000) = (rgSample, none) := by
  constructor
  · exact (C5_distance_fires_at_param_over_100 120 (4/10) (3/10) "LONG" 100 0 1 (201/2)
      (by norm_num) (by norm_num)).1 (by norm_num [abs])
  · exact (C5_distance_fires_at_param_over_100 120 (4/10) (3/10) "LONG" 100 0 1 (100003/1000)
      (by norm_num) (by norm_num)).2 (by norm_num [abs])

/-- C6: for a burst of `reconnect()` calls on an inactive connection all
within the 3-second suppression window of the first call, exactly one timer
is scheduled: the first call appends exactly one timer (and increments the
attempt counter once), and every later call in the window leaves the state
completely unchanged — the whole burst equals the first call alone. -/
theorem C6_reconnect_suppression_window
    (s : ConnState) (t0 : ℚ) (ts : List ℚ)
    (hact : s.active = false)
    (h0 : ¬ (t0 - s.last_reconnect < 3))
    (hts : ∀ t ∈ ts, t0 ≤ t ∧ t - t0 < 3) :
    ConnState.reconnectSeq s (t0 :: ts) = s.reconnect t0 ∧
    (s.reconnect t0).timers.length = s.timers.length + 1 ∧
    (s.reconnect t0).reconnect_timer.isSome = true ∧
    (s.reconnect t0).reconnect_attempts = s.reconnect_attempts + 1 ∧
    (∀ t ∈ ts, (s.reconnect t0).reconnect t = s.reconnect t0) := by
  have hsched := ConnState.reconnect_sched hact h0
  have hsup : ∀ t ∈ ts, (s.reconnect t0).reconnect t = s.reconnect t0 := by
    intro t ht
    apply ConnState.reconnect_suppressed
    · rw [hsched]
      exact hact
    · rw [hsched]
      simpa using (hts t ht).2
  refine ⟨?_, ?_, ?_, ?_, hsup⟩
  · unfold ConnState.reconnectSeq
    simp only [List.foldl_cons]
    exact reconnect_foldl_fixed _ _ hsup
  · rw [hsched]
    simp
  · rw [hsched]
    rfl
  · rw [hsched]

/-- C6 witness: a fresh connection hit with `reconnect()` at t = 5, 6, 7
(the last two inside the window) ends up with exactly one scheduled timer
and one attempt, identical to the single call at t = 5. -/
theorem C6_reconnect_suppression_window_witness :
    ConnState.reconnectSeq ConnState.init [5, 6, 7] = ConnState.init.reconnect 5 ∧
    (ConnState.init.reconnect 5).timers.length = 1 ∧
    (ConnState.init.reconnect 5).reconnect_attempts = 1 := by
  have h := C6_reconnect_suppression_window ConnState.init 5 [6, 7] rfl
    (by norm_num [ConnState.init])
    (by intro t ht; fin_cases ht <;> norm_num)
  refine ⟨h.1, ?_, ?_⟩
  · rw [h.2.1]
    rfl
  · rw [h.2.2.2.1]
    rfl

/-- C7: when the scheduled reconnect timer fires with a stale token the body
changes nothing at all (no teardown, no connect); when the connection is
already active it performs only the token/timer bookkeeping
(`_cancel_pending_reconnect`) — socket and thread handles, active flag, auth
flag, health, `last_reconnect` and the attempt counter are all unchanged, and
neither teardown nor `connect()` happens. -/
theorem C7_stale_or_active_timer_noop (s : ConnState) (token : ℕ) :
    (token ≠ s.reconnect_token → s.do_reconnect token = (s, [])) ∧
    (token = s.reconnect_token → s.active = true →
      (s.do_reconnect token).2 = [] ∧
      (s.do_reconnect token).1 = s.cancel_pending_reconnect ∧
      (s.do_reconnect token).1.ws = s.ws ∧
      (s.do_reconnect token).1.thread = s.thread ∧
      (s.do_reconnect token).1.active = s.active ∧
      (s.do_reconnect token).1.authed = s.authed ∧
      (s.do_reconnect token).1.health_state = s.health_state ∧
      (s.do_reconnect token).1.last_reconnect = s.last_reconnect ∧
      (s.do_reconnect token).1.reconnect_attempts = s.reconnect_attempts) := by
  constructor
  · intro h
    unfold ConnState.do_reconnect
    rw [if_pos h]
  · intro h hact
    have hd : s.do_reconnect token = (s.cancel_pending_reconnect, []) := by
      unfold ConnState.do_reconnect
      rw [if_neg (by simp [h]), if_pos hact]
    rw [hd]
    simp [ConnState.cancel_pending_reconnect]

/-- C7 witness: on a fresh connection a timer with stale token 5 is a total
no-op; on an active connection the current-token timer produces no effects
and leaves the socket handle alone. -/
theorem C7_stale_or_active_timer_noop_witness :
    ConnState.init.do_reconnect 5 = (ConnState.init, []) ∧
    (({ ConnState.init with active := true } : ConnState).do_reconnect 0).2 = [] ∧
    (({ ConnState.init with active := true } : ConnState).do_reconnect 0).1.ws = false := by
  have h1 := (C7_stale_or_active_timer_noop ConnState.init 5).1 (by decide)
  have h2 := (C7_stale_or_active_timer_noop
    { ConnState.init with active := true } 0).2 rfl rfl
  refine ⟨h1, h2.1, ?_⟩
  rw [h2.2.2.1]
  rfl

/-- C9: a non-suppressed `reconnect()` on an inactive connection schedules a
timer with delay `base(quality) + min(2^attempts, 30)` where `attempts` is
the counter AFTER incrementing and the base is 2 / 5 / 12 / 30 seconds for
quality excellent / good / poor / very_bad — the only four values
`get_quality_score` can return. -/
theorem C9_backoff_delay (s : ConnState) (now : ℚ)
    (hact : s.active = false) (h0 : ¬ (now - s.last_reconnect < 3)) :
    (s.reconnect now).reconnect_timer =
      some (s.reconnect_token + 1,
        reconnectBase s.reconnector.get_quality_score +
          min ((2:ℚ) ^ (s.reconnect_attempts + 1)) 30) ∧
    reconnectBase "excellent" = 2 ∧
    reconnectBase "good" = 5 ∧
    reconnectBase "poor" = 12 ∧
    reconnectBase "very_bad" = 30 ∧
    (s.reconnector.get_quality_score = "excellent" ∨
     s.reconnector.get_quality_score = "good" ∨
     s.reconnector.get_quality_score = "poor" ∨
     s.reconnector.get_quality_score = "very_bad") := by
  refine ⟨?_, by decide, by decide, by decide, by decide, ?_⟩
  · rw [ConnState.reconnect_sched hact h0]
  · unfold AdaptiveReconnect.get_quality_score
    by_cases h1 : s.reconnector.avg_uptime > 120
    · simp [h1]
    · by_cases h2 : s.reconnector.avg_uptime > 60
      · simp [h1, h2]
      · by_cases h3 : s.reconnector.avg_uptime > 20
        · simp [h1, h2, h3]
        · simp [h1, h2, h3]

/-- C9 witness: with smoothed uptime 150s (quality `excellent`) the first
reconnect schedules delay 2 + min(2^1, 30) = 4 under the bumped token. -/
theorem C9_backoff_delay_witness :
    (connExcellent.reconnect 10).reconnect_timer = some (1, 2 + min ((2:ℚ) ^ 1) 30) := by
  have h := (C9_backoff_delay connExcellent 10 rfl
    (by norm_num [connExcellent, ConnState.init])).1
  rw [h]
  norm_num [connExcellent, ConnState.init, AdaptiveReconnect.get_quality_score,
    AdaptiveReconnect.init]
  simp [reconnectBase]
  norm_num

/-- C10: a freshly constructed QualityTracker has smoothed uptime 0, scores
`very_bad`, and therefore the very first reconnect of a fresh connection uses
the maximum base of 30 seconds (delay 30 + min(2^1, 30)). -/
theorem C10_fresh_tracker_very_bad (now : ℚ) (h : ¬ (now - 0 < 3)) :
    AdaptiveReconnect.init.avg_uptime = 0 ∧
    AdaptiveReconnect.init.get_quality_score = "very_bad" ∧
    reconnectBase AdaptiveReconnect.init.get_quality_score = 30 ∧
    (ConnState.init.reconnect now).reconnect_timer =
      some (1, 30 + min ((2:ℚ) ^ 1) 30) := by
  have hq : AdaptiveReconnect.init.get_quality_score = "very_bad" := by
    norm_num [AdaptiveReconnect.get_quality_score, AdaptiveReconnect.init]
  have hb : reconnectBase "very_bad" = 30 := by decide
  refine ⟨rfl, hq, by rw [hq, hb], ?_⟩
  have hsched := ConnState.reconnect_sched (s := ConnState.init) rfl h
  rw [hsched]
  have hr : ConnState.init.reconnector = AdaptiveReconnect.init := rfl
  rw [hr, hq, hb]
  norm_num [ConnState.init]

/-- C10 witness: the first reconnect at t = 10 on a fresh connection
schedules base 30 (delay 32). -/
theorem C10_fresh_tracker_very_bad_witness :
    AdaptiveReconnect.init.get_quality_score = "very_bad" ∧
    (ConnState.init.reconnect 10).reconnect_timer =
      some (1, 30 + min ((2:ℚ) ^ 1) 30) := by
  have h := C10_fresh_tracker_very_bad 10 (by norm_num)
  exact ⟨h.2.1, h.2.2.2⟩

end BtcBot
